import Mathlib

/-!
Shallow embedding of the code-intel GraphQL query resolver layer
(enterprise/internal/codeintel/resolvers/graphql/query.go) together with the
spec-modelled collaborators it calls (cursor codec, backend resolver
interface, connection-resolver constructors).  Effectful Go functions are
embedded as pure functions that additionally return the list of events
(cursor decodings, backend calls) they performed, in order.
-/

/-- Errors are modelled as their message strings (Go `errors.New` / `fmt.Errorf`). -/
abbrev Err := String

/-- `DefaultReferencesPageSize` is the reference result page size when no limit is supplied. -/
def DefaultReferencesPageSize : Int := 100

/-- `DefaultDiagnosticsPageSize` is the diagnostic result page size when no limit is supplied. -/
def DefaultDiagnosticsPageSize : Int := 100

/-- `ErrIllegalLimit` occurs when the user requests less than one object per page. -/
def ErrIllegalLimit : Err := "illegal limit"

/-- A range of positions: (start line, start character, end line, end character). -/
structure LspRange where
  startLine : Nat
  startChar : Nat
  endLine : Nat
  endChar : Nat
deriving DecidableEq

/-- Modelled from the spec: a RawLocation is `(bundlePath, range)`, coordinates
local to one bundle (spec section 3); the missing `resolvers` package declares it. -/
structure RawLocation where
  bundlePath : String
  range : LspRange
deriving DecidableEq

/-- Modelled from the spec: diagnostic severity is one of error, warning,
information, hint (spec section 3). -/
inductive Severity where
  | error
  | warning
  | information
  | hint
deriving DecidableEq

/-- Modelled from the spec: a Diagnostic is `(path, range, severity, message, code)`
(spec section 3); the missing `resolvers` package declares it. -/
structure Diagnostic where
  path : String
  range : LspRange
  severity : Severity
  message : String
  code : String
deriving DecidableEq

/-- Modelled from the spec: a RangeView associates an indexed range with its
definition targets and hover data (spec section 3); declared in the missing
`resolvers` package. -/
structure RangeView where
  range : LspRange
  definitions : List RawLocation
  hoverText : String
  hoverRange : LspRange
deriving DecidableEq

/-- Modelled from the spec: pagination state carried by a cursor.  The spec
(section 4.3) requires the encoding to embed enough identity (the bundle
identifier) that decoding against a different context is rejected. -/
structure CursorState where
  dumpID : Nat
  offset : Nat
deriving DecidableEq

/-! ### Cursor codec (spec-modelled; the codec source is not under src/) -/

/-- The decimal digit character for a digit value below ten. -/
def digitChar (d : Nat) : Char := Char.ofNat (48 + d)

/-- Parse one decimal digit character back to its value. -/
def parseDigit (c : Char) : Option Nat :=
  if 48 ≤ c.toNat ∧ c.toNat ≤ 57 then some (c.toNat - 48) else none

/-- Little-endian decimal digits of a natural number, with explicit fuel so the
definition is structural. -/
def natDigitsAux : Nat → Nat → List Nat
  | 0, _ => []
  | fuel + 1, n => if n = 0 then [] else n % 10 :: natDigitsAux fuel (n / 10)

/-- Little-endian decimal digits of a natural number. -/
def natDigits (n : Nat) : List Nat := natDigitsAux n n

/-- Reassemble a little-endian decimal digit list into a natural number. -/
def ofDecDigits : List Nat → Nat
  | [] => 0
  | d :: ds => d + 10 * ofDecDigits ds

/-- Parse a little-endian list of decimal digit characters; the empty list
denotes zero. -/
def parseDigits : List Char → Option Nat
  | [] => some 0
  | c :: cs =>
    match parseDigit c, parseDigits cs with
    | some d, some n => some (d + 10 * n)
    | _, _ => none

/-- Split a character list into the groups separated by colons. -/
def splitOnColon : List Char → List (List Char)
  | [] => [[]]
  | c :: cs =>
    if c = ':' then [] :: splitOnColon cs
    else
      match splitOnColon cs with
      | [] => [[c]]
      | g :: gs => (c :: g) :: gs

/-- Modelled from the spec: `Encode(state) → string`, a deterministic versioned
encoding that embeds the bundle identifier (spec section 4.3).  The codec source
is not under src/. -/
def encodeCursor (st : CursorState) : String :=
  String.mk (['v', '1'] ++ ':' :: (natDigits st.dumpID).map digitChar
    ++ ':' :: (natDigits st.offset).map digitChar)

/-- Parse an encoded cursor string back into pagination state. -/
def parseCursor (s : String) : Option CursorState :=
  match splitOnColon s.data with
  | [ver, d1, d2] =>
    if ver = ['v', '1'] then
      match parseDigits d1, parseDigits d2 with
      | some dumpID, some offset => some { dumpID := dumpID, offset := offset }
      | _, _ => none
    else none
  | _ => none

/-- Modelled from the spec: the GraphQL-layer `decodeCursor` over the optional
`after` argument; an absent cursor decodes to the start of the sequence, never
an error, and malformed input fails with a distinct error (spec section 4.3).
The codec source is not under src/. -/
def decodeCursor (after : Option String) : Except Err (Option CursorState) :=
  match after with
  | none => Except.ok none
  | some s =>
    match parseCursor s with
    | some st => Except.ok (some st)
    | none => Except.error "invalid cursor"

/-- Modelled from the spec: `Decode(string) → (state, error)` against a bundle
context; a cursor encoded under a different bundle context is rejected rather
than silently misused (spec section 4.3).  The codec source is not under src/. -/
def decodeCursorIn (ctx : Nat) (s : String) : Except Err CursorState :=
  match parseCursor s with
  | none => Except.error "invalid cursor"
  | some st =>
    if st.dumpID = ctx then Except.ok st
    else Except.error "cursor encoded under a different bundle context"

/-! ### Helpers of the graphql package that are not under src/ -/

/-- Modelled from the spec: `derefInt32` returns the pointed-to caller limit, or
the default when the caller supplied none (spec: default limit applied when
unset). -/
def derefInt32 (val : Option Int) (defaultValue : Int) : Int :=
  match val with
  | some v => v
  | none => defaultValue

/-- Modelled from the spec: `strPtr` turns the backend cursor string into the
optional end cursor; an empty string means no further page. -/
def strPtr (s : String) : Option String :=
  if s = "" then none else some s

/-! ### Resolver structures (gql connection resolvers modelled from the spec) -/

/-- Modelled from the spec: the request-scoped cached location resolver is an
injected collaborator whose internals are out of scope for these claims; it is
carried opaquely, as the source carries the pointer. -/
structure CachedLocationResolver where
  id : Nat
deriving DecidableEq

/-- Modelled from the spec: `NewLocationConnectionResolver` shapes a list of
locations plus an optional end cursor into the connection resolver returned to
callers (constructor source not under src/). -/
structure LocationConnectionResolver where
  locations : List RawLocation
  endCursor : Option String
  locationResolver : CachedLocationResolver
deriving DecidableEq

/-- Constructor mirroring `NewLocationConnectionResolver(locations, cursor, locationResolver)`. -/
def NewLocationConnectionResolver (locations : List RawLocation) (endCursor : Option String)
    (locationResolver : CachedLocationResolver) : LocationConnectionResolver :=
  { locations := locations, endCursor := endCursor, locationResolver := locationResolver }

/-- Modelled from the spec: a hover resolver carries `(markupText, range)`
(spec section 3; constructor source not under src/). -/
structure HoverResolver where
  text : String
  range : LspRange
deriving DecidableEq

/-- Constructor mirroring `NewHoverResolver(text, range)`. -/
def NewHoverResolver (text : String) (range : LspRange) : HoverResolver :=
  { text := text, range := range }

/-- Modelled from the spec: `convertRange` translates an index-layer range into
the GraphQL-layer range (source not under src/; the claims treat it opaquely,
so it is modelled as the identity translation). -/
def convertRange (r : LspRange) : LspRange := r

/-- Modelled from the spec: `NewDiagnosticConnectionResolver` shapes diagnostics
plus the total count into the connection resolver (constructor source not under
src/). -/
structure DiagnosticConnectionResolver where
  diagnostics : List Diagnostic
  totalCount : Int
  locationResolver : CachedLocationResolver
deriving DecidableEq

/-- Constructor mirroring `NewDiagnosticConnectionResolver(diagnostics, totalCount, locationResolver)`. -/
def NewDiagnosticConnectionResolver (diagnostics : List Diagnostic) (totalCount : Int)
    (locationResolver : CachedLocationResolver) : DiagnosticConnectionResolver :=
  { diagnostics := diagnostics, totalCount := totalCount, locationResolver := locationResolver }

/-- Modelled from the spec: the underlying `resolvers.QueryResolver` interface
(the Bundle Accessor orchestration behind the GraphQL layer, spec section 4.1);
declared outside src/, so each operation is an injected function.  Go
`(value..., error)` returns are `Except`, except `Hover`, whose four parallel
return values `(text, range, exists, err)` are kept as a tuple because the
GraphQL layer inspects `exists` and `err` independently. -/
structure ResolversQueryResolver where
  definitionsFn : Int → Int → Except Err (List RawLocation)
  referencesFn : Int → Int → Int → Option CursorState → Except Err (List RawLocation × String)
  hoverFn : Int → Int → String × LspRange × Bool × Option Err
  diagnosticsFn : Int → Except Err (List Diagnostic × Int)
  navViewFn : Except Err (List RangeView)

/-- `QueryResolver` is the GraphQL-facing resolver struct from query.go: the
underlying resolver plus the cached location resolver. -/
structure QueryResolver where
  resolver : ResolversQueryResolver
  locationResolver : CachedLocationResolver

/-- `LSIFQueryPositionArgs`: a (line, character) position argument pair. -/
structure LSIFQueryPositionArgs where
  line : Int
  character : Int
deriving DecidableEq

/-- `LSIFPagedQueryPositionArgs`: position plus optional page size `first` and
optional cursor `after`. -/
structure LSIFPagedQueryPositionArgs where
  line : Int
  character : Int
  first : Option Int
  after : Option String
deriving DecidableEq

/-- `LSIFDiagnosticsArgs`: the optional page size `first`. -/
structure LSIFDiagnosticsArgs where
  first : Option Int
deriving DecidableEq

/-- `navViewConnectionResolver` from query.go: the range views plus the cached
location resolver. -/
structure NavViewConnectionResolver where
  rangeViews : List RangeView
  locationResolver : CachedLocationResolver

/-- `navRangeResolver` from query.go: one range view plus the cached location
resolver. -/
structure NavRangeResolver where
  rangeView : RangeView
  locationResolver : CachedLocationResolver
deriving DecidableEq

/-! ### Operations embedded from query.go -/

/-- `QueryResolver.NavView`: call the underlying resolver, propagate its error,
otherwise wrap the range views in a connection resolver (query.go lines 47-57). -/
def QueryResolver.NavView (r : QueryResolver) : Except Err NavViewConnectionResolver :=
  match r.resolver.navViewFn with
  | Except.error e => Except.error e
  | Except.ok rangeViews =>
    Except.ok { rangeViews := rangeViews, locationResolver := r.locationResolver }

/-- `navViewConnectionResolver.Nodes`: build one `navRangeResolver` per range
view by successive append, as the source loop does (query.go lines 64-74). -/
def NavViewConnectionResolver.Nodes (r : NavViewConnectionResolver) :
    Except Err (List NavRangeResolver) :=
  let resolvers := r.rangeViews.foldl
    (fun acc rv => acc ++ [{ rangeView := rv, locationResolver := r.locationResolver }]) []
  Except.ok resolvers

/-- `navRangeResolver.Range` (query.go lines 81-83). -/
def NavRangeResolver.Range (r : NavRangeResolver) : Except Err LspRange :=
  Except.ok (convertRange r.rangeView.range)

/-- `navRangeResolver.Definitions` (query.go lines 85-87). -/
def NavRangeResolver.Definitions (r : NavRangeResolver) : Except Err LocationConnectionResolver :=
  Except.ok (NewLocationConnectionResolver r.rangeView.definitions none r.locationResolver)

/-- `navRangeResolver.References`: always `fmt.Errorf("unimplemented")`
(query.go lines 89-91). -/
def NavRangeResolver.References (r : NavRangeResolver) : Except Err LocationConnectionResolver :=
  Except.error "unimplemented"

/-- `navRangeResolver.Hover` (query.go lines 93-95). -/
def NavRangeResolver.Hover (r : NavRangeResolver) : Except Err HoverResolver :=
  Except.ok (NewHoverResolver r.rangeView.hoverText (convertRange r.rangeView.hoverRange))

/-- `QueryResolver.Definitions`: call the underlying resolver, propagate its
error, otherwise wrap the locations with no cursor (query.go lines 101-108). -/
def QueryResolver.Definitions (r : QueryResolver) (args : LSIFQueryPositionArgs) :
    Except Err LocationConnectionResolver :=
  match r.resolver.definitionsFn args.line args.character with
  | Except.error e => Except.error e
  | Except.ok locations =>
    Except.ok (NewLocationConnectionResolver locations none r.locationResolver)

/-- An event performed by `QueryResolver.References`: decoding the cursor
argument, or calling the underlying resolver with the given arguments. -/
inductive RefEvent where
  | decode (after : Option String)
  | backend (line character limit : Int) (cursor : Option CursorState)
deriving DecidableEq

/-- `QueryResolver.References` (query.go lines 110-126): apply the default
limit, reject a non-positive limit before doing anything else, decode the
cursor, call the underlying resolver, and wrap the result.  The second
component records the events performed, in order. -/
def QueryResolver.References (r : QueryResolver) (args : LSIFPagedQueryPositionArgs) :
    Except Err LocationConnectionResolver × List RefEvent :=
  let limit := derefInt32 args.first DefaultReferencesPageSize
  if limit ≤ 0 then
    (Except.error ErrIllegalLimit, [])
  else
    match decodeCursor args.after with
    | Except.error e => (Except.error e, [RefEvent.decode args.after])
    | Except.ok cursor =>
      match r.resolver.referencesFn args.line args.character limit cursor with
      | Except.error e =>
        (Except.error e,
          [RefEvent.decode args.after, RefEvent.backend args.line args.character limit cursor])
      | Except.ok (locations, nextCursor) =>
        (Except.ok (NewLocationConnectionResolver locations (strPtr nextCursor) r.locationResolver),
          [RefEvent.decode args.after, RefEvent.backend args.line args.character limit cursor])

/-- `QueryResolver.Hover` (query.go lines 128-135): when the underlying resolver
errors or reports no hover, return a nil resolver together with that (possibly
nil) error; otherwise build the hover resolver.  The Go pair
`(gql.HoverResolver, error)` is the pair of options. -/
def QueryResolver.Hover (r : QueryResolver) (args : LSIFQueryPositionArgs) :
    Option HoverResolver × Option Err :=
  match r.resolver.hoverFn args.line args.character with
  | (text, rx, found, err) =>
    if err.isSome ∨ found = false then (none, err)
    else (some (NewHoverResolver text (convertRange rx)), none)

/-- An event performed by `QueryResolver.Diagnostics`: calling the underlying
resolver with the given limit. -/
inductive DiagEvent where
  | backend (limit : Int)
deriving DecidableEq

/-- `QueryResolver.Diagnostics` (query.go lines 137-149): apply the default
limit, reject a non-positive limit before calling the underlying resolver,
then wrap the diagnostics and total count.  The second component records the
backend calls performed. -/
def QueryResolver.Diagnostics (r : QueryResolver) (args : LSIFDiagnosticsArgs) :
    Except Err DiagnosticConnectionResolver × List DiagEvent :=
  let limit := derefInt32 args.first DefaultDiagnosticsPageSize
  if limit ≤ 0 then
    (Except.error ErrIllegalLimit, [])
  else
    match r.resolver.diagnosticsFn limit with
    | Except.error e => (Except.error e, [DiagEvent.backend limit])
    | Except.ok (diagnostics, totalCount) =>
      (Except.ok (NewDiagnosticConnectionResolver diagnostics totalCount r.locationResolver),
        [DiagEvent.backend limit])

/-! ### Spec-modelled backend (Bundle Accessor orchestration, not under src/) -/

/-- The offset denoted by a decoded cursor; an absent cursor is the start of the
sequence. -/
def cursorOffset (cursor : Option CursorState) : Nat :=
  match cursor with
  | none => 0
  | some st => st.offset

/-- The cursor emitted after a page: it encodes the position after the page, or
is the empty string when the sequence is exhausted. -/
def nextRefCursor (dumpID nextOffset total : Nat) : String :=
  if nextOffset < total then encodeCursor { dumpID := dumpID, offset := nextOffset } else ""

/-- Modelled from the spec: a backend `resolvers.QueryResolver` over one bundle
whose reference results are the fixed, deterministically ordered list
`allRefs` (spec sections 4.1 and 8): one page is the next `limit` items from
the cursor's offset, together with the `nextRefCursor`.  Diagnostics analogously
return the first `limit` diagnostics of `allDiags` together with the total
count.  The orchestration source for both is not under src/. -/
def pagedBackend (dumpID : Nat) (allRefs : List RawLocation) (allDiags : List Diagnostic) :
    ResolversQueryResolver where
  definitionsFn := fun _ _ => Except.ok []
  referencesFn := fun _ _ limit cursor =>
    let offset := cursorOffset cursor
    let page := (allRefs.drop offset).take limit.toNat
    Except.ok (page, nextRefCursor dumpID (offset + page.length) allRefs.length)
  hoverFn := fun _ _ => ("", ⟨0, 0, 0, 0⟩, false, none)
  diagnosticsFn := fun limit => Except.ok (allDiags.take limit.toNat, Int.ofNat allDiags.length)
  navViewFn := Except.ok []

/-- Drive `QueryResolver.References` to exhaustion: call one page, and while the
connection carries an end cursor, feed it back as the `after` argument,
concatenating the pages.  Fuel bounds the number of pages. -/
def paginateRefs (r : QueryResolver) (line character limit : Int) :
    Nat → Option String → Except Err (List RawLocation)
  | 0, _ => Except.error "out of fuel"
  | fuel + 1, after =>
    let args : LSIFPagedQueryPositionArgs :=
      { line := line, character := character, first := some limit, after := after }
    match (r.References args).1 with
    | Except.error e => Except.error e
    | Except.ok conn =>
      match conn.endCursor with
      | none => Except.ok conn.locations
      | some c =>
        match paginateRefs r line character limit fuel (some c) with
        | Except.error e => Except.error e
        | Except.ok rest => Except.ok (conn.locations ++ rest)


/-! ### Concrete fixtures used by the closed example theorems -/

/-- A concrete request-scoped location resolver instance. -/
def lr0 : CachedLocationResolver := { id := 0 }

/-- A concrete degenerate range. -/
def range0 : LspRange := { startLine := 0, startChar := 0, endLine := 0, endChar := 0 }

/-- A family of distinct concrete raw locations. -/
def loc (i : Nat) : RawLocation :=
  { bundlePath := "a.go", range := { startLine := i, startChar := 0, endLine := i, endChar := 1 } }

/-- A family of distinct concrete diagnostics. -/
def diag (i : Nat) : Diagnostic :=
  { path := "a.go", range := { startLine := i, startChar := 0, endLine := i, endChar := 1 },
    severity := Severity.warning, message := "m", code := "c" }

/-- A backend whose hover reports no hover at the position, with no error. -/
def hoverNoneBackend : ResolversQueryResolver :=
  { pagedBackend 1 [] [] with hoverFn := fun _ _ => ("", range0, false, none) }

/-- A backend whose hover fails with a backend error. -/
def hoverErrBackend : ResolversQueryResolver :=
  { pagedBackend 1 [] [] with hoverFn := fun _ _ => ("", range0, false, some "backend failure") }

/-! ### Cursor codec lemmas -/

theorem ofDecDigits_natDigitsAux (fuel : Nat) :
    ∀ n, n ≤ fuel → ofDecDigits (natDigitsAux fuel n) = n := by
  induction fuel with
  | zero =>
    intro n hn
    have : n = 0 := Nat.le_zero.mp hn
    simp [this, natDigitsAux, ofDecDigits]
  | succ fuel ih =>
    intro n hn
    by_cases h : n = 0
    · simp [natDigitsAux, h, ofDecDigits]
    · have hdiv : n / 10 ≤ fuel := by
        have : n / 10 < n := Nat.div_lt_self (Nat.pos_of_ne_zero h) (by omega)
        omega
      simp only [natDigitsAux, h, if_false, ofDecDigits, ih (n / 10) hdiv]
      omega

theorem ofDecDigits_natDigits (n : Nat) : ofDecDigits (natDigits n) = n :=
  ofDecDigits_natDigitsAux n n (Nat.le_refl n)

theorem natDigitsAux_lt (fuel : Nat) :
    ∀ n d, d ∈ natDigitsAux fuel n → d < 10 := by
  induction fuel with
  | zero => intro n d hd; simp [natDigitsAux] at hd
  | succ fuel ih =>
    intro n d hd
    by_cases h : n = 0
    · simp [natDigitsAux, h] at hd
    · simp only [natDigitsAux, h, if_false, List.mem_cons] at hd
      rcases hd with hd | hd
      · omega
      · exact ih (n / 10) d hd

theorem natDigits_lt (n d : Nat) (hd : d ∈ natDigits n) : d < 10 :=
  natDigitsAux_lt n n d hd

theorem parseDigit_digitChar : ∀ d, d < 10 → parseDigit (digitChar d) = some d := by
  decide

theorem digitChar_ne_colon : ∀ d, d < 10 → digitChar d ≠ ':' := by
  decide

theorem parseDigits_map_digitChar :
    ∀ ds : List Nat, (∀ d ∈ ds, d < 10) →
      parseDigits (ds.map digitChar) = some (ofDecDigits ds) := by
  intro ds
  induction ds with
  | nil => intro _; rfl
  | cons d ds ih =>
    intro h
    have hd : d < 10 := h d (List.mem_cons_self d ds)
    have hds : ∀ x ∈ ds, x < 10 := fun x hx => h x (List.mem_cons_of_mem d hx)
    simp only [List.map_cons, parseDigits, parseDigit_digitChar d hd, ih hds, ofDecDigits]

theorem splitOnColon_append (a : List Char) :
    ∀ b, (∀ c ∈ a, c ≠ ':') → splitOnColon (a ++ ':' :: b) = a :: splitOnColon b := by
  induction a with
  | nil => intro b _; simp [splitOnColon]
  | cons c cs ih =>
    intro b h
    have hc : c ≠ ':' := h c (List.mem_cons_self c cs)
    have hcs : ∀ x ∈ cs, x ≠ ':' := fun x hx => h x (List.mem_cons_of_mem c hx)
    simp only [List.cons_append, splitOnColon, hc, if_false, List.append_eq, ih b hcs]

theorem splitOnColon_no_colon (a : List Char) (h : ∀ c ∈ a, c ≠ ':') :
    splitOnColon a = [a] := by
  induction a with
  | nil => rfl
  | cons c cs ih =>
    have hc : c ≠ ':' := h c (List.mem_cons_self c cs)
    have hcs : ∀ x ∈ cs, x ≠ ':' := fun x hx => h x (List.mem_cons_of_mem c hx)
    simp only [splitOnColon, hc, if_false, ih hcs]

theorem mapped_digits_ne_colon (n : Nat) :
    ∀ c ∈ (natDigits n).map digitChar, c ≠ ':' := by
  intro c hc
  rcases List.mem_map.mp hc with ⟨d, hd, rfl⟩
  exact digitChar_ne_colon d (natDigits_lt n d hd)

/-- Decoding an encoded cursor recovers the original pagination state. -/
theorem parseCursor_encodeCursor (st : CursorState) :
    parseCursor (encodeCursor st) = some st := by
  have hdata : (encodeCursor st).data =
      ['v', '1'] ++ ':' :: ((natDigits st.dumpID).map digitChar
        ++ ':' :: (natDigits st.offset).map digitChar) := rfl
  have hv : ∀ c ∈ (['v', '1'] : List Char), c ≠ ':' := by decide
  have h1 := mapped_digits_ne_colon st.dumpID
  have h2 := mapped_digits_ne_colon st.offset
  have hsplit : splitOnColon (encodeCursor st).data =
      [['v', '1'], (natDigits st.dumpID).map digitChar,
        (natDigits st.offset).map digitChar] := by
    rw [hdata, splitOnColon_append _ _ hv, splitOnColon_append _ _ h1,
      splitOnColon_no_colon _ h2]
  simp only [parseCursor, hsplit]
  rw [parseDigits_map_digitChar _ (fun d hd => natDigits_lt _ d hd),
    parseDigits_map_digitChar _ (fun d hd => natDigits_lt _ d hd)]
  simp [ofDecDigits_natDigits]

theorem decodeCursor_encodeCursor (st : CursorState) :
    decodeCursor (some (encodeCursor st)) = Except.ok (some st) := by
  simp [decodeCursor, parseCursor_encodeCursor]

theorem encodeCursor_ne_empty (st : CursorState) : encodeCursor st ≠ "" := by
  intro h
  have : (encodeCursor st).data = ("" : String).data := by rw [h]
  simp [encodeCursor] at this

/-- One `References` page against the paged backend, fully evaluated. -/
theorem references_pagedBackend (dumpID : Nat) (allRefs : List RawLocation)
    (allDiags : List Diagnostic) (lr : CachedLocationResolver)
    (line character limit : Int) (after : Option String) (cur : Option CursorState)
    (hl : 0 < limit) (hd : decodeCursor after = Except.ok cur) :
    (QueryResolver.References ⟨pagedBackend dumpID allRefs allDiags, lr⟩
      { line := line, character := character, first := some limit, after := after }).1 =
      Except.ok (NewLocationConnectionResolver
        ((allRefs.drop (cursorOffset cur)).take limit.toNat)
        (strPtr (nextRefCursor dumpID
          (cursorOffset cur + ((allRefs.drop (cursorOffset cur)).take limit.toNat).length)
          allRefs.length))
        lr) := by
  have hle : ¬ (derefInt32 (some limit) DefaultReferencesPageSize ≤ 0) := by
    simp [derefInt32]; omega
  simp only [QueryResolver.References, hle, if_false, hd, pagedBackend]
  simp [derefInt32]

/-- Exhaustive pagination against the paged backend returns the tail of the
full result list from the current cursor offset. -/
theorem paginateRefs_pagedBackend (dumpID : Nat) (allRefs : List RawLocation)
    (allDiags : List Diagnostic) (lr : CachedLocationResolver)
    (line character limit : Int) (hl : 0 < limit) :
    ∀ (fuel : Nat) (after : Option String) (cur : Option CursorState),
      decodeCursor after = Except.ok cur →
      allRefs.length - cursorOffset cur < fuel →
      paginateRefs ⟨pagedBackend dumpID allRefs allDiags, lr⟩ line character limit fuel after =
        Except.ok (allRefs.drop (cursorOffset cur)) := by
  intro fuel
  induction fuel with
  | zero => intro after cur _ hf; omega
  | succ fuel ih =>
    intro after cur hd hf
    have hk : 0 < limit.toNat := by omega
    have hstep := references_pagedBackend dumpID allRefs allDiags lr line character limit
      after cur hl hd
    simp only [paginateRefs, hstep, NewLocationConnectionResolver]
    by_cases hmore :
        cursorOffset cur + ((allRefs.drop (cursorOffset cur)).take limit.toNat).length
          < allRefs.length
    · have hplen : ((allRefs.drop (cursorOffset cur)).take limit.toNat).length =
          min limit.toNat (allRefs.length - cursorOffset cur) := by
        simp [List.length_take, List.length_drop]
      have hmin : min limit.toNat (allRefs.length - cursorOffset cur) = limit.toNat := by
        rw [hplen] at hmore; omega
      have hnext : cursorOffset cur + ((allRefs.drop (cursorOffset cur)).take limit.toNat).length =
          cursorOffset cur + limit.toNat := by rw [hplen, hmin]
      have hcursor : nextRefCursor dumpID
          (cursorOffset cur + ((allRefs.drop (cursorOffset cur)).take limit.toNat).length)
          allRefs.length =
          encodeCursor ⟨dumpID, cursorOffset cur + limit.toNat⟩ := by
        rw [hnext] at hmore ⊢
        simp only [nextRefCursor, hmore, if_true]
      have hne := encodeCursor_ne_empty ⟨dumpID, cursorOffset cur + limit.toNat⟩
      have hco : cursorOffset (some (⟨dumpID, cursorOffset cur + limit.toNat⟩ : CursorState)) =
          cursorOffset cur + limit.toNat := rfl
      have hrec := ih (some (encodeCursor ⟨dumpID, cursorOffset cur + limit.toNat⟩))
        (some ⟨dumpID, cursorOffset cur + limit.toNat⟩)
        (decodeCursor_encodeCursor _) (by rw [hco]; omega)
      rw [hco] at hrec
      have hsp : strPtr (encodeCursor ⟨dumpID, cursorOffset cur + limit.toNat⟩) =
          some (encodeCursor ⟨dumpID, cursorOffset cur + limit.toNat⟩) := by
        simp [strPtr, hne]
      simp only [hcursor, hsp, hrec]
      rw [List.drop_take_append_drop]
    · have hcursor : nextRefCursor dumpID
          (cursorOffset cur + ((allRefs.drop (cursorOffset cur)).take limit.toNat).length)
          allRefs.length = "" := by
        simp only [nextRefCursor, hmore, if_false]
      have hall : (allRefs.drop (cursorOffset cur)).take limit.toNat =
          allRefs.drop (cursorOffset cur) := by
        apply List.take_of_length_le
        simp only [List.length_take, List.length_drop] at hmore ⊢
        omega
      have hsp : strPtr "" = none := by simp [strPtr]
      simp only [hcursor, hsp]
      rw [hall]

/-! ### Claim theorems -/

theorem foldl_append_singleton {α β : Type} (f : α → β) (l : List α) :
    ∀ acc : List β, l.foldl (fun acc rv => acc ++ [f rv]) acc = acc ++ l.map f := by
  induction l with
  | nil => intro acc; simp
  | cons x xs ih =>
    intro acc
    simp only [List.foldl_cons, List.map_cons, ih (acc ++ [f x]), List.append_assoc,
      List.singleton_append]

/-- C4: the experimental NavView per-range References operation always returns
the first-class "unimplemented" error outcome; being a total function of the
embedding it cannot panic, and the equation shows it never returns a
successful (even empty) result. -/
theorem navview_references_always_unimplemented (r : NavRangeResolver) :
    r.References = Except.error "unimplemented" := rfl

/-- C9: `navViewConnectionResolver.Nodes` never errors and returns exactly the
list of per-range resolvers wrapping the connection's range views, one node per
range view in input order (`List.map` preserves cardinality and order, and the
appended equation makes the i-th node wrap the i-th range view). -/
theorem navview_nodes_one_per_rangeview (r : NavViewConnectionResolver) :
    r.Nodes = Except.ok (r.rangeViews.map
      (fun rv => NavRangeResolver.mk rv r.locationResolver)) ∧
    (r.rangeViews.map (fun rv => NavRangeResolver.mk rv r.locationResolver)).length =
      r.rangeViews.length := by
  constructor
  · simp only [NavViewConnectionResolver.Nodes]
    rw [foldl_append_singleton]
    simp
  · simp

/-- C6: when the underlying resolver reports no definitions and no error,
`QueryResolver.Definitions` succeeds with the empty location list (never an
error and never a partial result). -/
theorem definitions_empty_on_no_results (r : QueryResolver) (args : LSIFQueryPositionArgs)
    (h : r.resolver.definitionsFn args.line args.character = Except.ok []) :
    r.Definitions args = Except.ok (NewLocationConnectionResolver [] none r.locationResolver) := by
  simp [QueryResolver.Definitions, h]

/-- Closed witness for C6 at a concrete backend with no definitions. -/
theorem definitions_empty_on_no_results_witness :
    QueryResolver.Definitions ⟨pagedBackend 1 [] [], lr0⟩ ⟨5, 7⟩ =
      Except.ok (NewLocationConnectionResolver [] none lr0) :=
  definitions_empty_on_no_results ⟨pagedBackend 1 [] [], lr0⟩ ⟨5, 7⟩ rfl

/-- C3: when the underlying resolver reports no hover and no error,
`QueryResolver.Hover` returns success with no content (nil hover resolver, nil
error); a backend error at the same call instead surfaces as a non-nil error,
so the two outcomes are distinguishable. -/
theorem hover_not_found_is_success_distinct_from_error (r : QueryResolver)
    (args : LSIFQueryPositionArgs) :
    (∀ text rx, r.resolver.hoverFn args.line args.character = (text, rx, false, none) →
      r.Hover args = (none, none)) ∧
    (∀ text rx found e, r.resolver.hoverFn args.line args.character = (text, rx, found, some e) →
      r.Hover args = (none, some e)) := by
  constructor
  · intro text rx h
    simp [QueryResolver.Hover, h]
  · intro text rx found e h
    simp [QueryResolver.Hover, h]

/-- Closed witness for C3: the no-hover backend yields success with no content,
while the erroring backend yields the backend error at the same call. -/
theorem hover_not_found_witness :
    QueryResolver.Hover ⟨hoverNoneBackend, lr0⟩ ⟨1, 2⟩ = (none, none) ∧
    QueryResolver.Hover ⟨hoverErrBackend, lr0⟩ ⟨1, 2⟩ = (none, some "backend failure") :=
  ⟨(hover_not_found_is_success_distinct_from_error ⟨hoverNoneBackend, lr0⟩ ⟨1, 2⟩).1
      "" range0 rfl,
    (hover_not_found_is_success_distinct_from_error ⟨hoverErrBackend, lr0⟩ ⟨1, 2⟩).2
      "" range0 false "backend failure" rfl⟩

/-- C1: whenever the effective limit (after applying the default for an unset
caller limit) is non-positive, both References and Diagnostics fail with the
"illegal limit" error and perform no event at all — in particular the
underlying resolver is never called. -/
theorem illegal_limit_rejected_before_backend (r : QueryResolver)
    (args : LSIFPagedQueryPositionArgs) (dargs : LSIFDiagnosticsArgs)
    (h1 : derefInt32 args.first DefaultReferencesPageSize ≤ 0)
    (h2 : derefInt32 dargs.first DefaultDiagnosticsPageSize ≤ 0) :
    r.References args = (Except.error ErrIllegalLimit, []) ∧
    r.Diagnostics dargs = (Except.error ErrIllegalLimit, []) := by
  constructor
  · simp [QueryResolver.References, h1]
  · simp [QueryResolver.Diagnostics, h2]

/-- Closed witness for C1 at limit 0 (References) and limit -1 (Diagnostics). -/
theorem illegal_limit_rejected_before_backend_witness :
    QueryResolver.References ⟨pagedBackend 1 [] [], lr0⟩ ⟨0, 0, some 0, none⟩ =
      (Except.error ErrIllegalLimit, []) ∧
    QueryResolver.Diagnostics ⟨pagedBackend 1 [] [], lr0⟩ ⟨some (-1)⟩ =
      (Except.error ErrIllegalLimit, []) :=
  illegal_limit_rejected_before_backend ⟨pagedBackend 1 [] [], lr0⟩ ⟨0, 0, some 0, none⟩
    ⟨some (-1)⟩ (by decide) (by decide)

/-- C2: when the caller supplies no limit, the call passed to the underlying
resolver uses exactly the default page size 100, for both References (whose
recorded backend call carries limit 100) and Diagnostics. -/
theorem default_page_size_is_100 (r : QueryResolver)
    (args : LSIFPagedQueryPositionArgs) (dargs : LSIFDiagnosticsArgs)
    (cur : Option CursorState)
    (h1 : args.first = none) (hd : decodeCursor args.after = Except.ok cur)
    (h2 : dargs.first = none) :
    (r.References args).2 =
      [RefEvent.decode args.after, RefEvent.backend args.line args.character 100 cur] ∧
    (r.Diagnostics dargs).2 = [DiagEvent.backend 100] := by
  constructor
  · have hlim : derefInt32 args.first DefaultReferencesPageSize = 100 := by rw [h1]; rfl
    have hle : ¬ (derefInt32 args.first DefaultReferencesPageSize ≤ 0) := by rw [hlim]; omega
    simp only [QueryResolver.References, hle, if_false, hd, hlim]
    cases r.resolver.referencesFn args.line args.character 100 cur with
    | error e => rfl
    | ok v => cases v with | mk locations nextCursor => rfl
  · have hlim : derefInt32 dargs.first DefaultDiagnosticsPageSize = 100 := by rw [h2]; rfl
    have hle : ¬ (derefInt32 dargs.first DefaultDiagnosticsPageSize ≤ 0) := by rw [hlim]; omega
    simp only [QueryResolver.Diagnostics, hle, if_false, hlim]
    cases r.resolver.diagnosticsFn 100 with
    | error e => rfl
    | ok v => cases v with | mk diagnostics totalCount => rfl

/-- Closed witness for C2 with an unset limit and an absent cursor. -/
theorem default_page_size_is_100_witness :
    (QueryResolver.References ⟨pagedBackend 1 [] [], lr0⟩ ⟨3, 4, none, none⟩).2 =
      [RefEvent.decode none, RefEvent.backend 3 4 100 none] ∧
    (QueryResolver.Diagnostics ⟨pagedBackend 1 [] [], lr0⟩ ⟨none⟩).2 =
      [DiagEvent.backend 100] :=
  default_page_size_is_100 ⟨pagedBackend 1 [] [], lr0⟩ ⟨3, 4, none, none⟩ ⟨none⟩ none
    rfl rfl rfl

/-- C5: when the cursor argument fails to decode (and the limit guard passes),
References returns exactly the decoding error and its event trace contains only
the decode event — the underlying resolver is never called. -/
theorem malformed_cursor_rejected_before_backend (r : QueryResolver)
    (args : LSIFPagedQueryPositionArgs) (e : Err)
    (hl : ¬ derefInt32 args.first DefaultReferencesPageSize ≤ 0)
    (hd : decodeCursor args.after = Except.error e) :
    (r.References args).1 = Except.error e ∧
    (r.References args).2 = [RefEvent.decode args.after] := by
  constructor
  · simp [QueryResolver.References, hl, hd]
  · simp [QueryResolver.References, hl, hd]

/-- Closed witness for C5 at a concrete malformed cursor string. -/
theorem malformed_cursor_rejected_before_backend_witness :
    (QueryResolver.References ⟨pagedBackend 1 [] [], lr0⟩
      ⟨0, 0, some 5, some "garbage"⟩).1 = Except.error "invalid cursor" ∧
    (QueryResolver.References ⟨pagedBackend 1 [] [], lr0⟩
      ⟨0, 0, some 5, some "garbage"⟩).2 = [RefEvent.decode (some "garbage")] :=
  malformed_cursor_rejected_before_backend ⟨pagedBackend 1 [] [], lr0⟩
    ⟨0, 0, some 5, some "garbage"⟩ "invalid cursor" (by decide) (by rfl)

/-- C10: the illegal-limit check precedes cursor decoding: for any cursor
argument whatsoever (malformed included), a non-positive effective limit gives
the "illegal limit" error and an empty event trace, so the cursor is never
decoded and no cursor error can be produced. -/
theorem limit_check_precedes_cursor_decode (r : QueryResolver)
    (line character : Int) (first : Option Int) (after : Option String)
    (h : derefInt32 first DefaultReferencesPageSize ≤ 0) :
    (r.References ⟨line, character, first, after⟩).1 = Except.error ErrIllegalLimit ∧
    (r.References ⟨line, character, first, after⟩).2 = [] := by
  constructor
  · simp [QueryResolver.References, h]
  · simp [QueryResolver.References, h]

/-- Closed witness for C10 at a negative limit with a malformed cursor. -/
theorem limit_check_precedes_cursor_decode_witness :
    (QueryResolver.References ⟨pagedBackend 1 [] [], lr0⟩
      ⟨0, 0, some (-3), some "not-a-cursor"⟩).1 = Except.error ErrIllegalLimit ∧
    (QueryResolver.References ⟨pagedBackend 1 [] [], lr0⟩
      ⟨0, 0, some (-3), some "not-a-cursor"⟩).2 = [] :=
  limit_check_precedes_cursor_decode ⟨pagedBackend 1 [] [], lr0⟩ 0 0 (some (-3))
    (some "not-a-cursor") (by decide)

/-- C7: decoding the codec's encoding of any pagination state against the
state's own bundle context recovers the state exactly, and decoding the same
cursor against a different bundle context is rejected with an error. -/
theorem cursor_roundtrip_and_context_rejection (st : CursorState) (ctx : Nat) :
    decodeCursorIn st.dumpID (encodeCursor st) = Except.ok st ∧
    (ctx ≠ st.dumpID →
      decodeCursorIn ctx (encodeCursor st) =
        Except.error "cursor encoded under a different bundle context") := by
  constructor
  · simp [decodeCursorIn, parseCursor_encodeCursor]
  · intro h
    simp [decodeCursorIn, parseCursor_encodeCursor, Ne.symm h]

/-- Closed witness for C7: round trip at state (dump 1, offset 2), rejection
against the foreign context 3. -/
theorem cursor_roundtrip_and_context_rejection_witness :
    decodeCursorIn 1 (encodeCursor ⟨1, 2⟩) = Except.ok ⟨1, 2⟩ ∧
    decodeCursorIn 3 (encodeCursor ⟨1, 2⟩) =
      Except.error "cursor encoded under a different bundle context" :=
  ⟨(cursor_roundtrip_and_context_rejection ⟨1, 2⟩ 3).1,
    (cursor_roundtrip_and_context_rejection ⟨1, 2⟩ 3).2 (by decide)⟩

/-- C8 counterexample: Diagnostics is not cursor-paginated — its connection
carries only the diagnostics and the total count, with no cursor to resume.
Over a backend holding three diagnostics, a single Diagnostics call with limit
2 returns only two of them (the third is omitted) and, the result type having
no cursor field, "repeatedly paginating with each returned cursor" cannot
reach the omitted item, so the claim as stated fails for Diagnostics. -/
theorem diagnostics_single_page_omits_items :
    (QueryResolver.Diagnostics
        ⟨pagedBackend 1 [] [diag 0, diag 1, diag 2], lr0⟩ ⟨some 2⟩).1 =
      Except.ok (NewDiagnosticConnectionResolver [diag 0, diag 1] 3 lr0) ∧
    diag 2 ∉ [diag 0, diag 1] := by
  constructor
  · rfl
  · decide

/-- C8 (amended): for every limit greater than zero, over the paged backend,
(1) every successful References page holds at most limit items, (2) repeated
pagination of References with each returned cursor yields every item exactly
once — the concatenation of the pages is exactly the backend's full ordered
result list — and (3) a Diagnostics call returns at most limit items in its
single page together with the exact total count. -/
theorem pagination_law (dumpID : Nat) (allRefs : List RawLocation)
    (allDiags : List Diagnostic) (lr : CachedLocationResolver)
    (line character limit : Int) (hl : 0 < limit) :
    (∀ args conn, args.first = some limit →
      (QueryResolver.References ⟨pagedBackend dumpID allRefs allDiags, lr⟩ args).1 =
        Except.ok conn → conn.locations.length ≤ limit.toNat) ∧
    paginateRefs ⟨pagedBackend dumpID allRefs allDiags, lr⟩ line character limit
      (allRefs.length + 1) none = Except.ok allRefs ∧
    (∀ dconn, (QueryResolver.Diagnostics ⟨pagedBackend dumpID allRefs allDiags, lr⟩
        ⟨some limit⟩).1 = Except.ok dconn →
      dconn.diagnostics.length ≤ limit.toNat ∧ dconn.totalCount = Int.ofNat allDiags.length) := by
  refine ⟨?_, ?_, ?_⟩
  · intro args conn hfirst hok
    cases args with
    | mk aline achar afirst aafter =>
      cases hfirst
      cases hdc : decodeCursor aafter with
      | error e =>
        have : (QueryResolver.References ⟨pagedBackend dumpID allRefs allDiags, lr⟩
            ⟨aline, achar, some limit, aafter⟩).1 = Except.error e := by
          have hle : ¬ (derefInt32 (some limit) DefaultReferencesPageSize ≤ 0) := by
            simp [derefInt32]; omega
          simp [QueryResolver.References, hle, hdc]
        rw [this] at hok
        exact absurd hok (by simp)
      | ok cur =>
        have hstep := references_pagedBackend dumpID allRefs allDiags lr aline achar limit
          aafter cur hl hdc
        rw [hstep] at hok
        have hconn : conn = NewLocationConnectionResolver
            ((allRefs.drop (cursorOffset cur)).take limit.toNat)
            (strPtr (nextRefCursor dumpID
              (cursorOffset cur + ((allRefs.drop (cursorOffset cur)).take limit.toNat).length)
              allRefs.length))
            lr := by
          cases hok
          rfl
        rw [hconn]
        simp only [NewLocationConnectionResolver, List.length_take, List.length_drop]
        omega
  · have h := paginateRefs_pagedBackend dumpID allRefs allDiags lr line character limit hl
      (allRefs.length + 1) none none rfl (by simp [cursorOffset])
    simpa [cursorOffset] using h
  · intro dconn hok
    have hle : ¬ (limit ≤ 0) := by omega
    simp only [QueryResolver.Diagnostics, derefInt32, hle, if_false, pagedBackend,
      Except.ok.injEq] at hok
    rw [← hok]
    simp only [NewDiagnosticConnectionResolver, List.length_take]
    refine ⟨by omega, by simp⟩

/-- Closed witness for C8 (amended): with limit 2 over three references, full
pagination returns exactly the three items in order. -/
theorem pagination_law_witness :
    paginateRefs ⟨pagedBackend 1 [loc 0, loc 1, loc 2] [], lr0⟩ 0 0 2 4 none =
      Except.ok [loc 0, loc 1, loc 2] :=
  (pagination_law 1 [loc 0, loc 1, loc 2] [] lr0 0 0 2 (by decide)).2.1
